import Mathlib

/-!
# Verification of the Binary Ninja MCP bridge routing/resilience/caching layer

Shallow embedding of `src/bridge/bn_mcp_bridge_multi_http.py` (and the
single-binary variant `bn_mcp_bridge_http.py`, whose `_request`,
`_clamp_paging`, `TTLCache` and `_list_endpoint` are textually identical up to
the `binary_id` routing).  Python dictionaries are modelled as association
lists in insertion order (CPython ≥ 3.7 guarantees insertion-order
iteration); JSON values and Python data reaching the bridge are modelled by
the `PyData` inductive; wall-clock instants (`time.monotonic`) are modelled
as exact rationals.  The network is an oracle mapping a concrete HTTP call
and an attempt number to that attempt's outcome.
-/

/-- A Python/JSON value as it appears in the bridge:
`None`, booleans, integers, strings, lists and (insertion-ordered) dicts
with string keys.  The `_request` fall-back `txt.splitlines()` result is a
Python list of strings and is hence also represented here (as `.list` of
`.str`). -/
inductive PyData where
  | none_ : PyData
  | bool (b : Bool) : PyData
  | int (n : Int) : PyData
  | str (s : String) : PyData
  | list (xs : List PyData) : PyData
  | dict (fields : List (String × PyData)) : PyData

/-- Python truthiness (`bool(x)`) on the values of `PyData`. -/
def pyTruthy : PyData → Bool
  | .none_ => false
  | .bool b => b
  | .int n => n != 0
  | .str s => s ≠ ""
  | .list xs => !xs.isEmpty
  | .dict fs => !fs.isEmpty

/-- First-match association-list lookup: `d.get(k)` on a Python dict whose
keys are unique. -/
def assocFind {κ ν : Type} [DecidableEq κ] (l : List (κ × ν)) (k : κ) : Option ν :=
  (l.find? (fun p => p.1 = k)).map (·.2)

/-- Python `d[k] = v` on a dict modelled as an insertion-ordered association
list: replace the value in place if the key is present, else append. -/
def assocSet {κ ν : Type} [DecidableEq κ] :
    List (κ × ν) → κ → ν → List (κ × ν)
  | [], k, v => [(k, v)]
  | (k', v') :: rest, k, v =>
      if k' = k then (k, v) :: rest else (k', v') :: assocSet rest k v

/-- Python `d.pop(k, None)`: remove the entry for `k` (keys are unique, so
filtering all occurrences agrees with removing the one occurrence). -/
def assocErase {κ ν : Type} [DecidableEq κ] (l : List (κ × ν)) (k : κ) :
    List (κ × ν) :=
  l.filter (fun p => p.1 ≠ k)

/-- Python `{**base, **extra}` / sequential `d[k] = v` updates. -/
def dictUpdate {κ ν : Type} [DecidableEq κ] (base : List (κ × ν))
    (extra : List (κ × ν)) : List (κ × ν) :=
  extra.foldl (fun acc p => assocSet acc p.1 p.2) base

/-- Python `x or default` specialised to optional strings (used for
`binary_id or "default"`‑style expressions where the left side is a `str`). -/
def pyStrOr (o : Option String) (d : String) : String :=
  match o with
  | none => d
  | some s => if s = "" then d else s

/-- Truthiness of an optional string (`if err:` where `err : str | None`). -/
def pyTruthyOS : Option String → Bool
  | none => false
  | some s => s ≠ ""

/-- Python `binary_id or None` for a `str`-typed `binary_id`. -/
def pyStrOrNone (s : String) : Option String :=
  if s = "" then none else some s

/-- Python `str.lower()` (ASCII case folding), computed on the character
list so that concrete instances evaluate. -/
def pyLower (s : String) : String :=
  ⟨s.data.map Char.toLower⟩

/-- Python `str.strip()` (drop leading and trailing whitespace), computed on
the character list. -/
def pyStrip (s : String) : String :=
  ⟨((s.data.dropWhile Char.isWhitespace).reverse.dropWhile Char.isWhitespace).reverse⟩

/-- `s.startswith(c)` for a single character. -/
def strStartsWithChar (s : String) (c : Char) : Bool :=
  match s.data with
  | [] => false
  | a :: _ => a = c

/-- Lexicographic comparison of strings by code point (the comparison
Python uses for `str` sort keys), computed on the character lists. -/
def listCharLeB : List Char → List Char → Bool
  | [], _ => true
  | _ :: _, [] => false
  | a :: as, b :: bs =>
      if a < b then true
      else if b < a then false
      else listCharLeB as bs

def strLeB (a b : String) : Bool :=
  listCharLeB a.data b.data

-- ── Tunables (source lines 16–25 of the multi bridge) ────────────────────────

def BINJA_BASE_URL : String := "http://localhost"
def BINJA_BASE_PORT : Nat := 9009
def MAX_SERVERS : Nat := 10
def CONNECT_TIMEOUT : ℚ := 1
def READ_TIMEOUT : ℚ := 8
def MAX_RETRIES : Nat := 2
def RETRY_BACKOFF_BASE : ℚ := 1/5
def DEFAULT_LIMIT : ℤ := 100
def MAX_LIMIT : ℤ := 1000
def CACHE_TTL : ℚ := 3

-- ── Resilient client (`_request`, source lines 102–152) ──────────────────────

/-- Query-parameter / cache-parameter values occurring in the bridge: the
tools only ever put integers and strings into `params` dictionaries. -/
inductive PVal where
  | int (n : ℤ) : PVal
  | str (s : String) : PVal
deriving DecidableEq, Repr

/-- One concrete HTTP call as issued by `_request`: method, resolved URL,
query parameters (GET) and plain-text body (POST). -/
structure HttpCall where
  method : String
  url : String
  params : List (String × PVal)
  body : Option String

/-- The body of one completed HTTP response, as far as `_request` inspects
it: either `r.json()` succeeds with a value, or it raises
`json.JSONDecodeError` and the bridge falls back to the raw text.  The
result of the external `json.loads` on the stripped text is supplied as an
oracle alongside the text. -/
inductive Body where
  | jsonOk (v : PyData) : Body
  | jsonErr (text : String) (loads : Option PyData) : Body

/-- Outcome of one HTTP attempt: a transport-level exception
(`requests` timeout, connection refused, …) or a completed response. -/
inductive Attempt where
  | exn (msg : String) : Attempt
  | resp (status : Nat) (reason : String) (body : Body) : Attempt

/-- Python `str.splitlines` restricted to `"\n"` separators (the only
separator relevant to the claims), computed on the character list:
`""` gives `[]`, a trailing newline produces no empty final line. -/
def pySplitlinesAux : List Char → List Char → List String
  | [], acc => if acc.isEmpty then [] else [⟨acc.reverse⟩]
  | c :: rest, acc =>
      if c = '\n' then (⟨acc.reverse⟩ : String) :: pySplitlinesAux rest []
      else pySplitlinesAux rest (c :: acc)

def pySplitlines (s : String) : List String :=
  pySplitlinesAux s.data []

/-- The 2xx body-decoding ladder of `_request` (source lines 138–145): try
`r.json()`; on `JSONDecodeError` strip the text; if it starts with a brace
or bracket re-parse with `json.loads` (whose own failure escapes to the
outer `except` as a transport-level failure, `Except.error` here);
otherwise return the text split into lines. -/
def decodeBody : Body → Except String PyData
  | .jsonOk v => .ok v
  | .jsonErr text loads =>
      let txt := pyStrip text
      if strStartsWithChar txt '\x7b' || strStartsWithChar txt '[' then
        match loads with
        | some v => .ok v
        | none => .error "Expecting value: line 1 column 1"
      else .ok (.list ((pySplitlines txt).map PyData.str))

/-- Result of `_request`: the `(data, error)` pair together with the ghost
observations needed by the claims — the backoff sleeps performed and the
number of HTTP attempts issued. -/
structure ReqResult where
  data : Option PyData
  error : Option String
  sleeps : List ℚ
  attempts : Nat

/-- The retry loop of `_request` (source lines 128–152).  `fuel` is the
number of loop iterations left (`range(MAX_RETRIES + 1)`), `a` the 0-based
index of the current attempt, `lastErr` the `last_err` variable and
`sleeps` the backoff sleeps performed so far. -/
def requestGo (oracle : HttpCall → Nat → Attempt) (call : HttpCall) :
    Nat → Nat → Option String → List ℚ → ReqResult
  | 0, a, lastErr, sleeps => ⟨none, some (pyStrOr lastErr "unknown error"), sleeps, a⟩
  | fuel + 1, a, _lastErr, sleeps =>
    match oracle call a with
    | .exn msg =>
        requestGo oracle call fuel (a + 1) (some msg)
          (if a < MAX_RETRIES then sleeps ++ [RETRY_BACKOFF_BASE * ((a : ℚ) + 1)] else sleeps)
    | .resp status reason body =>
        if 200 ≤ status ∧ status < 300 then
          match decodeBody body with
          | .ok v => ⟨some v, none, sleeps, a + 1⟩
          | .error msg =>
              requestGo oracle call fuel (a + 1) (some msg)
                (if a < MAX_RETRIES then sleeps ++ [RETRY_BACKOFF_BASE * ((a : ℚ) + 1)] else sleeps)
        else ⟨none, some (toString status ++ " " ++ reason), sleeps, a + 1⟩

/-- `_request` after target resolution: run the attempt loop. -/
def runRequest (oracle : HttpCall → Nat → Attempt) (call : HttpCall) : ReqResult :=
  requestGo oracle call (MAX_RETRIES + 1) 0 none []

-- ── Discovery registry (source lines 31–90) ──────────────────────────────────

/-- One record of `BinaryServerRegistry.servers` (source lines 58–64).
Per the §6 per-instance contract the status `filename` field is a string;
a missing or non-string field is recorded as `"unknown"`. -/
structure ServerInfo where
  url : String
  port : Nat
  filename : String
  status : PyData
  lastSeen : ℚ

def mkServerInfo (port : Nat) (status : List (String × PyData)) (now : ℚ) :
    ServerInfo :=
  { url := BINJA_BASE_URL ++ ":" ++ toString port
    port := port
    filename :=
      match assocFind status "filename" with
      | some (.str s) => s
      | _ => "unknown"
    status := .dict status
    lastSeen := now }

/-- One discovery sweep (`discover_servers`, source lines 48–70): probe the
ports `BINJA_BASE_PORT + 0 … + (MAX_SERVERS - 1)` in ascending order; the
probe oracle returns the parsed status JSON of a port when the `GET /status`
probe completed with code 200 and a decodable body, and `none` when the
probe raised.  A port is recorded iff its status is a mapping whose
`loaded` field is truthy; the resulting registry dict is in ascending port
order (CPython dict = insertion order). -/
def discoverServers (probe : Nat → Option PyData) (now : ℚ) :
    List (String × ServerInfo) :=
  (List.range MAX_SERVERS).filterMap fun offset =>
    let port := BINJA_BASE_PORT + offset
    match probe port with
    | some (.dict fs) =>
        if pyTruthy ((assocFind fs "loaded").getD .none_) then
          some ("port_" ++ toString port, mkServerInfo port fs now)
        else none
    | _ => none

/-- `get_default_server` (source lines 84–87):
`next(iter(servers.values())) if servers else None`. -/
def getDefaultServer (servers : List (String × ServerInfo)) : Option ServerInfo :=
  (servers.map (·.2)).head?

/-- Target resolution at the head of `_request` (source lines 112–123):
a truthy `binary_id` resolves through `get_server_by_id`, a falsy one
(empty string or `None`) through `get_default_server`. -/
def resolveTarget (servers : List (String × ServerInfo))
    (binaryId : Option String) : Except String ServerInfo :=
  if pyTruthyOS binaryId then
    match assocFind servers (binaryId.getD "") with
    | some info => .ok info
    | none => .error ("Binary server \x27" ++ binaryId.getD "" ++ "\x27 not found")
  else
    match getDefaultServer servers with
    | some info => .ok info
    | none => .error "No Binary Ninja servers available"

/-- The whole of `_request` (source lines 102–152): resolve the target
server, then run the retry loop against `f"{base_url}/{endpoint}"`. -/
def fullRequest (servers : List (String × ServerInfo)) (binaryId : Option String)
    (oracle : HttpCall → Nat → Attempt) (method endpoint : String)
    (params : List (String × PVal)) (body : Option String) : ReqResult :=
  match resolveTarget servers binaryId with
  | .error e => ⟨none, some e, [], 0⟩
  | .ok info => runRequest oracle ⟨method, info.url ++ "/" ++ endpoint, params, body⟩

-- ── Pagination clamp (`_clamp_paging`, source lines 154–157) ─────────────────

/-- Python `x or default` on an optional integer (`0` is falsy). -/
def pyIntOr (o : Option ℤ) (d : ℤ) : ℤ :=
  match o with
  | none => d
  | some v => if v = 0 then d else v

def clampPaging (offset limit : Option ℤ) : ℤ × ℤ :=
  (max 0 (pyIntOr offset 0), min MAX_LIMIT (max 1 (pyIntOr limit DEFAULT_LIMIT)))

-- ── TTL cache (`TTLCache`, source lines 162–185) ─────────────────────────────

/-- The order used by Python `sorted(params.items())`: lexicographic on the
(key, value) tuple.  With the distinct keys of a dict the value comparison
is never consulted; a total order on `PVal` is fixed so that sorting is
canonical. -/
def PVal.leB : PVal → PVal → Bool
  | .int a, .int b => a ≤ b
  | .int _, .str _ => true
  | .str _, .int _ => false
  | .str a, .str b => a ≤ b

def paramLe (a b : String × PVal) : Prop :=
  a.1 < b.1 ∨ (a.1 = b.1 ∧ PVal.leB a.2 b.2 = true)

instance paramLe.decRel : DecidableRel paramLe := fun a b => by
  unfold paramLe; infer_instance

/-- `tuple(sorted(params.items()))` (source line 168). -/
def sortParams (params : List (String × PVal)) : List (String × PVal) :=
  List.insertionSort paramLe params

/-- `TTLCache._key` (source lines 167–168). -/
def cacheKey (name : String) (params : List (String × PVal)) :
    String × List (String × PVal) :=
  (name, sortParams params)

/-- `TTLCache` state: the fixed TTL and the `store` dict mapping keys to
`(timestamp, value)` pairs. -/
structure TTLCache (α : Type) where
  ttl : ℚ
  store : List ((String × List (String × PVal)) × ℚ × α)

/-- `TTLCache.get` (source lines 170–179): a hit is valid iff
`now - t ≤ ttl`; an expired entry is popped (lazy expiry).  The returned
cache is the post-call state of the mutated `store`. -/
def TTLCache.get {α : Type} (c : TTLCache α) (name : String)
    (params : List (String × PVal)) (now : ℚ) : Option α × TTLCache α :=
  let k := cacheKey name params
  match assocFind c.store k with
  | none => (none, c)
  | some (t, v) =>
      if now - t > c.ttl then (none, ⟨c.ttl, assocErase c.store k⟩)
      else (some v, c)

/-- `TTLCache.set` (source lines 181–183). -/
def TTLCache.set {α : Type} (c : TTLCache α) (name : String)
    (params : List (String × PVal)) (v : α) (now : ℚ) : TTLCache α :=
  ⟨c.ttl, assocSet c.store (cacheKey name params) (now, v)⟩

-- ── Envelope normalizer (`_list_endpoint`, source lines 187–224) ─────────────

/-- The uniform response envelope `{ok, error?, items, hasMore}`; `error` is
`none` when the key is absent (success path). -/
structure Envelope where
  ok : Bool
  error : Option String
  items : PyData
  hasMore : Bool

/-- `_list_endpoint` (source lines 187–224): consult the TTL cache under the
key `f"{endpoint}_{binary_id or 'default'}"` with the merged params dict;
on a miss issue the request, shape the payload into the envelope and cache
the result (errors included).  The third component counts the HTTP attempts
issued by this call (0 when served from cache). -/
def listEndpoint (endpoint : String) (offset limit : ℤ)
    (extra : List (String × PVal)) (binaryId : Option String)
    (servers : List (String × ServerInfo)) (oracle : HttpCall → Nat → Attempt)
    (cache : TTLCache Envelope) (now : ℚ) :
    Envelope × TTLCache Envelope × Nat :=
  let params := dictUpdate [("offset", PVal.int offset), ("limit", PVal.int limit)] extra
  let cacheName := endpoint ++ "_" ++ pyStrOr binaryId "default"
  match cache.get cacheName params now with
  | (some env, c) => (env, c, 0)
  | (none, c) =>
    let r := fullRequest servers binaryId oracle "GET" endpoint params none
    if pyTruthyOS r.error then
      let resp : Envelope := ⟨false, r.error, .list [], false⟩
      (resp, c.set cacheName params resp now, r.attempts)
    else
      let d := r.data.getD .none_
      let env : Envelope :=
        match d with
        | .dict fs =>
            if (assocFind fs "items").isSome then
              ⟨true, none, (assocFind fs "items").getD (.list []),
                pyTruthy ((assocFind fs "hasMore").getD (.bool false))⟩
            else ⟨true, none, .list [d], false⟩
        | .list xs => ⟨true, none, .list xs, decide ((xs.length : ℤ) ≥ limit)⟩
        | other => ⟨true, none, .list [other], false⟩
      (env, c.set cacheName params env now, r.attempts)

-- ── Instance selector (`select_binary_by_filename`, source lines 270–309) ────

/-- One entry of the `matches` list built by `select_binary_by_filename`. -/
structure MatchCand where
  binaryId : String
  filename : String
  port : Nat
  exactMatch : Bool
deriving DecidableEq, Repr

/-- Python `needle in hay` on strings: substring containment. -/
def isSubstr (needle hay : List Char) : Bool :=
  (List.range (hay.length + 1)).any fun i => needle.isPrefixOf (hay.drop i)

def pyInStr (needle hay : String) : Bool :=
  isSubstr needle.toList hay.toList

/-- The unsorted `matches` list (source lines 280–288): one candidate per
registry entry whose display filename contains the query
case-insensitively, with the exact-match flag. -/
def rawMatches (q : String) (servers : List (String × ServerInfo)) :
    List MatchCand :=
  servers.filterMap fun p =>
    let sf := p.2.filename
    if pyInStr (pyLower q) (pyLower sf) then
      some ⟨p.1, sf, p.2.port, decide (pyLower q = pyLower sf)⟩
    else none

/-- The sort key order of source line 298:
`key=lambda x: (not x["exact_match"], x["filename"])`, ascending. -/
def candLe (a b : MatchCand) : Prop :=
  ((!a.exactMatch) = false ∧ (!b.exactMatch) = true) ∨
    ((!a.exactMatch) = (!b.exactMatch) ∧ strLeB a.filename b.filename = true)

instance candLe.decRel : DecidableRel candLe := fun a b => by
  unfold candLe; infer_instance

/-- Result of `select_binary_by_filename`: either the not-found dict
(source lines 290–295) or the success dict (source lines 300–305). -/
inductive SelectResult where
  | notFound (error : String) (available : List String) : SelectResult
  | found (cands : List MatchCand) (selected : Option String)
      (message : String) : SelectResult

/-- `select_binary_by_filename` (source lines 270–309). -/
def selectBinaryByFilename (filename : String)
    (servers : List (String × ServerInfo)) : SelectResult :=
  let ms := rawMatches filename servers
  if ms.isEmpty then
    .notFound ("No binary found matching filename \x27" ++ filename ++ "\x27")
      (servers.map (·.2.filename))
  else
    let sorted := List.insertionSort candLe ms
    .found sorted (sorted.head?.map (·.binaryId))
      ("Found " ++ toString ms.length ++ " match(es) for \x27" ++ filename ++ "\x27")

-- ── Tool layer (source lines 230–629) ────────────────────────────────────────

/-- A Python value for an optional error string (`"error": err`). -/
def optStr : Option String → PyData
  | none => .none_
  | some s => .str s

/-- `binary_id or "default"` for the `str`-typed tool parameter. -/
def pyOrDefault (s : String) : String :=
  if s = "" then "default" else s

mutual
/-- A (simplified, unescaped) `json.dumps` on the modelled values — external
library behaviour, used only by `decompile_function` to normalize non-string
payloads to text. -/
def pyDumps : PyData → String
  | .none_ => "null"
  | .bool b => if b then "true" else "false"
  | .int n => toString n
  | .str s => "\"" ++ s ++ "\""
  | .list xs => "[" ++ String.intercalate ", " (pyDumpsList xs) ++ "]"
  | .dict fs => "\x7b" ++ String.intercalate ", " (pyDumpsFields fs) ++ "\x7d"

def pyDumpsList : List PyData → List String
  | [] => []
  | x :: xs => pyDumps x :: pyDumpsList xs

def pyDumpsFields : List (String × PyData) → List String
  | [] => []
  | (k, v) :: fs => ("\"" ++ k ++ "\": " ++ pyDumps v) :: pyDumpsFields fs
end

/-- `health` (source lines 340–356). -/
def healthTool (servers : List (String × ServerInfo))
    (oracle : HttpCall → Nat → Attempt) (binaryId : String) : PyData :=
  let r := fullRequest servers (pyStrOrNone binaryId) oracle "GET" "status" [] none
  .dict [("ok", .bool (decide (r.error = none))),
         ("error", optStr r.error),
         ("status",
           match r.data with
           | some (.str s) => .str s
           | some (.dict fs) => .dict fs
           | _ => .none_),
         ("binary_id", .str (pyOrDefault binaryId))]

/-- `overview` (source lines 597–612). -/
def overviewTool (servers : List (String × ServerInfo))
    (oracle : HttpCall → Nat → Attempt) (binaryId : String) : PyData :=
  let r := fullRequest servers (pyStrOrNone binaryId) oracle "GET" "overview" [] none
  if pyTruthyOS r.error then
    .dict [("ok", .bool false), ("error", optStr r.error)]
  else
    .dict [("ok", .bool true), ("overview", r.data.getD .none_),
           ("binary_id", .str (pyOrDefault binaryId))]

/-- `get_binary_status` (source lines 614–629). -/
def getBinaryStatusTool (servers : List (String × ServerInfo))
    (oracle : HttpCall → Nat → Attempt) (binaryId : String) : PyData :=
  let r := fullRequest servers (pyStrOrNone binaryId) oracle "GET" "binary" [] none
  if pyTruthyOS r.error then
    .dict [("ok", .bool false), ("error", optStr r.error)]
  else
    .dict [("ok", .bool true), ("binary", r.data.getD .none_),
           ("binary_id", .str (pyOrDefault binaryId))]

/-- `decompile_function` (source lines 574–595). -/
def decompileFunctionTool (servers : List (String × ServerInfo))
    (oracle : HttpCall → Nat → Attempt) (name binaryId : String) : PyData :=
  if pyStrip name = "" then
    .dict [("ok", .bool false), ("error", .str "Function name cannot be empty")]
  else
    let r := fullRequest servers (pyStrOrNone binaryId) oracle "POST" "decompile"
      [] (some (pyStrip name))
    if pyTruthyOS r.error then
      .dict [("ok", .bool false), ("error", optStr r.error)]
    else
      let code :=
        match r.data with
        | some (.str s) => s
        | d => pyDumps (d.getD .none_)
      .dict [("ok", .bool true), ("code", .str code),
             ("binary_id", .str (pyOrDefault binaryId))]

/-- `read_memory` (source lines 487–533). -/
def readMemoryTool (servers : List (String × ServerInfo))
    (oracle : HttpCall → Nat → Attempt) (address : String) (size : ℤ)
    (format binaryId : String) : PyData :=
  if address = "" then
    .dict [("ok", .bool false), ("error", .str "Address is required")]
  else if size ≤ 0 ∨ size > 4096 then
    .dict [("ok", .bool false),
           ("error", .str "Size must be between 1 and 4096 bytes")]
  else
    let params := [("address", PVal.str (pyStrip address)), ("size", PVal.int size),
                   ("format", PVal.str format)]
    let r := fullRequest servers (pyStrOrNone binaryId) oracle "GET" "memory" params none
    if pyTruthyOS r.error then
      .dict [("ok", .bool false), ("error", optStr r.error)]
    else
      .dict [("ok", .bool true), ("address", .str address), ("size", .int size),
             ("format", .str format), ("data", r.data.getD .none_),
             ("binary_id", .str (pyOrDefault binaryId))]

/-- `get_data_item` (source lines 442–485); the success dict is
`{"ok": True, **data}` for a mapping payload. -/
def getDataItemTool (servers : List (String × ServerInfo))
    (oracle : HttpCall → Nat → Attempt) (name address binaryId : String) : PyData :=
  if name = "" ∧ address = "" then
    .dict [("ok", .bool false),
           ("error", .str "Either name or address must be provided")]
  else
    let params :=
      (if name ≠ "" then [("name", PVal.str (pyStrip name))] else []) ++
      (if address ≠ "" then [("address", PVal.str (pyStrip address))] else [])
    let r := fullRequest servers (pyStrOrNone binaryId) oracle "GET" "data/item" params none
    if pyTruthyOS r.error then
      .dict [("ok", .bool false), ("error", optStr r.error)]
    else
      match r.data with
      | some (.dict fs) => .dict (dictUpdate [("ok", PyData.bool true)] fs)
      | d => .dict [("ok", .bool true), ("data", d.getD .none_)]

/-- `search_data_references` (source lines 535–572); note the success dict
for a mapping payload is `{"ok": True, "binary_id": ..., **data}`, the
payload keys being merged last. -/
def searchDataReferencesTool (servers : List (String × ServerInfo))
    (oracle : HttpCall → Nat → Attempt) (address pattern binaryId : String) : PyData :=
  if address = "" ∧ pattern = "" then
    .dict [("ok", .bool false),
           ("error", .str "Either address or pattern must be provided")]
  else
    let params :=
      (if address ≠ "" then [("address", PVal.str (pyStrip address))] else []) ++
      (if pattern ≠ "" then [("pattern", PVal.str (pyStrip pattern))] else [])
    let r := fullRequest servers (pyStrOrNone binaryId) oracle "GET"
      "data/references" params none
    if pyTruthyOS r.error then
      .dict [("ok", .bool false), ("error", optStr r.error)]
    else
      match r.data with
      | some (.list xs) =>
          .dict [("ok", .bool true), ("references", .list xs),
                 ("binary_id", .str (pyOrDefault binaryId))]
      | some (.dict fs) =>
          .dict (dictUpdate
            [("ok", PyData.bool true), ("binary_id", PyData.str (pyOrDefault binaryId))] fs)
      | _ =>
          .dict [("ok", .bool true), ("references", .list []),
                 ("binary_id", .str (pyOrDefault binaryId))]

def validKinds : List String :=
  ["methods", "classes", "segments", "imports", "exports", "data", "namespaces"]

/-- `list_entities` (source lines 358–393). -/
def listEntitiesTool (kind : String) (offset limit : ℤ) (query binaryId : String)
    (servers : List (String × ServerInfo)) (oracle : HttpCall → Nat → Attempt)
    (cache : TTLCache Envelope) (now : ℚ) : Envelope × TTLCache Envelope × Nat :=
  if kind ∉ validKinds then
    (⟨false, some ("Invalid kind. Must be one of: " ++ String.intercalate ", " validKinds),
      .list [], false⟩, cache, 0)
  else
    let ol := clampPaging (some offset) (some limit)
    if query ≠ "" ∧ kind = "methods" then
      listEndpoint "searchFunctions" ol.1 ol.2 [("query", PVal.str query)]
        (pyStrOrNone binaryId) servers oracle cache now
    else
      let extra := if query ≠ "" then [("query", PVal.str query)] else []
      listEndpoint kind ol.1 ol.2 extra (pyStrOrNone binaryId) servers oracle cache now

/-- The `item.setdefault(...)` loop of `list_data` (source lines 428–435). -/
def setdefaultFields (fs : List (String × PyData)) : List (String × PyData) :=
  let f1 := if (assocFind fs "name").isSome then fs else fs ++ [("name", .str "unnamed")]
  let f2 := if (assocFind f1 "address").isSome then f1 else f1 ++ [("address", .none_)]
  let f3 := if (assocFind f2 "size").isSome then f2 else f2 ++ [("size", .int 0)]
  if (assocFind f3 "type").isSome then f3 else f3 ++ [("type", .str "unknown")]

/-- `list_data` (source lines 395–440). -/
def listDataTool (offset limit : ℤ) (query filterType binaryId : String)
    (servers : List (String × ServerInfo)) (oracle : HttpCall → Nat → Attempt)
    (cache : TTLCache Envelope) (now : ℚ) : Envelope × TTLCache Envelope × Nat :=
  let ol := clampPaging (some offset) (some limit)
  let extra :=
    (if query ≠ "" then [("query", PVal.str query)] else []) ++
    (if filterType ≠ "" then [("type", PVal.str filterType)] else [])
  let res := listEndpoint "data" ol.1 ol.2 extra (pyStrOrNone binaryId) servers oracle cache now
  let env := res.1
  let env2 :=
    if env.ok && pyTruthy env.items then
      match env.items with
      | .list xs =>
          { env with items := PyData.list (xs.map fun it =>
              match it with
              | .dict fs => .dict (setdefaultFields fs)
              | x => x) }
      | _ => env
    else env
  (env2, res.2.1, res.2.2)

-- ── Session timeouts (source lines 125–135) and the `requests` contract ─────

/-- The `requests.Session` object as configured by `_request` (source lines
125–126): the plain attribute assignment `session.timeout = (CONNECT_TIMEOUT,
READ_TIMEOUT)` stores a pair on the object. -/
structure BridgeSession where
  timeoutAttr : Option (ℚ × ℚ)

def bridgeSession : BridgeSession := ⟨some (CONNECT_TIMEOUT, READ_TIMEOUT)⟩

/-- Modelled from the documented interface of the external `requests`
library: the timeout bound in effect for a `Session.get` / `Session.post`
call is exactly the per-call `timeout=` keyword argument (default `None`,
meaning no bound); `requests.Session` has no timeout setting, so a stored
`timeout` attribute is never consulted by the request machinery. -/
def requestsEffectiveTimeout (_session : BridgeSession)
    (timeoutKwarg : Option (ℚ × ℚ)) : Option (ℚ × ℚ) :=
  timeoutKwarg

/-- The timeout in effect for each HTTP attempt issued by `_request`:
`session.get(url, params=params)` and `session.post(url, data=data)`
(source lines 133 and 135) pass no `timeout=` keyword. -/
def bridgeAttemptTimeout : Option (ℚ × ℚ) :=
  requestsEffectiveTimeout bridgeSession none

-- ── Helper lemmas ────────────────────────────────────────────────────────────

theorem requestGo_attempts_le (oracle : HttpCall → Nat → Attempt) (call : HttpCall) :
    ∀ (fuel a : Nat) (lastErr : Option String) (sleeps : List ℚ),
      (requestGo oracle call fuel a lastErr sleeps).attempts ≤ a + fuel := by
  intro fuel
  induction fuel with
  | zero => intro a lastErr sleeps; simp [requestGo]
  | succ n ih =>
    intro a lastErr sleeps
    rw [requestGo]
    cases oracle call a with
    | exn msg =>
        exact le_trans (ih (a + 1) (some msg) _) (by omega)
    | resp status reason body =>
        dsimp only
        by_cases h2 : 200 ≤ status ∧ status < 300
        · rw [if_pos h2]
          cases hd : decodeBody body with
          | ok v =>
              show a + 1 ≤ a + (n + 1)
              omega
          | error msg =>
              exact le_trans (ih (a + 1) (some msg) _) (by omega)
        · rw [if_neg h2]
          show a + 1 ≤ a + (n + 1)
          omega

-- ── C1 ───────────────────────────────────────────────────────────────────────

/-- C1: if the first `N ≤ MAX_RETRIES` attempts of `_request` fail with a
transport-level exception and attempt `N + 1` returns a 2xx response with a
decodable JSON body, then `_request` returns that decoded value with a null
error, performs exactly `N` backoff sleeps of durations
`RETRY_BACKOFF_BASE * attemptNumber` for `attemptNumber = 1 .. N` (linear
backoff), and every execution of the loop issues at most `MAX_RETRIES + 1`
HTTP attempts. -/
theorem retry_transport_success (oracle : HttpCall → Nat → Attempt) (call : HttpCall)
    (N : Nat) (msgs : Nat → String) (v : PyData) (status : Nat) (reason : String)
    (hN : N ≤ MAX_RETRIES)
    (hfail : ∀ i, i < N → oracle call i = .exn (msgs i))
    (hsucc : oracle call N = .resp status reason (.jsonOk v))
    (h2xx : 200 ≤ status ∧ status < 300) :
    runRequest oracle call =
      ⟨some v, none, (List.range N).map (fun i => RETRY_BACKOFF_BASE * ((i : ℚ) + 1)), N + 1⟩
    ∧ ∀ (oracle2 : HttpCall → Nat → Attempt) (call2 : HttpCall),
        (runRequest oracle2 call2).attempts ≤ MAX_RETRIES + 1 := by
  constructor
  · have hcond : (200 ≤ status ∧ status < 300) = True := eq_true h2xx
    have hN3 : N = 0 ∨ N = 1 ∨ N = 2 := by
      unfold MAX_RETRIES at hN; omega
    unfold runRequest
    rcases hN3 with h | h | h <;> subst h
    · simp only [MAX_RETRIES, requestGo, hsucc, hcond, if_true, decodeBody]
      simp
    · simp only [MAX_RETRIES, requestGo, hfail 0 (by norm_num),
        hsucc, hcond, if_true, decodeBody]
      simp [List.range_succ]
    · simp only [MAX_RETRIES, requestGo, hfail 0 (by norm_num), hfail 1 (by norm_num),
        hsucc, hcond, if_true, decodeBody]
      simp [List.range_succ]
  · intro oracle2 call2
    have h := requestGo_attempts_le oracle2 call2 (MAX_RETRIES + 1) 0 none []
    simpa [runRequest] using h

def oracleRetryDemo : HttpCall → Nat → Attempt := fun _ n =>
  if n < 2 then .exn "connection refused" else .resp 200 "OK" (.jsonOk (.int 42))

def demoCall : HttpCall := ⟨"GET", "http://localhost:9009/methods", [], none⟩

theorem retry_transport_success_witness :
    runRequest oracleRetryDemo demoCall =
      ⟨some (.int 42), none,
        (List.range 2).map (fun i => RETRY_BACKOFF_BASE * ((i : ℚ) + 1)), 3⟩
    ∧ (runRequest oracleRetryDemo demoCall).attempts ≤ MAX_RETRIES + 1 := by
  have h := retry_transport_success oracleRetryDemo demoCall 2
    (fun _ => "connection refused") (.int 42) 200 "OK" (by norm_num [MAX_RETRIES])
    (fun i hi => by simp [oracleRetryDemo, hi])
    (by simp [oracleRetryDemo]) (by norm_num)
  exact ⟨h.1, h.2 oracleRetryDemo demoCall⟩

-- ── C2 ───────────────────────────────────────────────────────────────────────

/-- C2: whenever an HTTP attempt of `_request` completes with a status code
outside `[200, 300)` (necessarily after `k ≤ MAX_RETRIES` prior
transport-level failures), `_request` returns immediately from that attempt
with `data = None` and `error = f"{status_code} {reason}"`, issuing no
further attempts and performing no backoff sleep for that attempt; the case
`k = 0` is the immediate-error-with-zero-retries case of an HTTP 500 on the
first attempt. -/
theorem status_error_no_retry (oracle : HttpCall → Nat → Attempt) (call : HttpCall)
    (k : Nat) (msgs : Nat → String) (status : Nat) (reason : String) (body : Body)
    (hk : k ≤ MAX_RETRIES)
    (hfail : ∀ i, i < k → oracle call i = .exn (msgs i))
    (hresp : oracle call k = .resp status reason body)
    (hbad : ¬(200 ≤ status ∧ status < 300)) :
    runRequest oracle call =
      ⟨none, some (toString status ++ " " ++ reason),
        (List.range k).map (fun i => RETRY_BACKOFF_BASE * ((i : ℚ) + 1)), k + 1⟩ := by
  have hcond : (200 ≤ status ∧ status < 300) = False := eq_false hbad
  have hk3 : k = 0 ∨ k = 1 ∨ k = 2 := by
    unfold MAX_RETRIES at hk; omega
  unfold runRequest
  rcases hk3 with h | h | h <;> subst h
  · simp only [MAX_RETRIES, requestGo, hresp, hcond, if_false]
    simp
  · simp only [MAX_RETRIES, requestGo, hfail 0 (by norm_num), hresp, hcond, if_false]
    simp [List.range_succ]
  · simp only [MAX_RETRIES, requestGo, hfail 0 (by norm_num), hfail 1 (by norm_num),
      hresp, hcond, if_false]
    simp [List.range_succ]

def oracleStatus500Demo : HttpCall → Nat → Attempt := fun _ _ =>
  .resp 500 "Internal Server Error" (.jsonOk .none_)

theorem status_error_no_retry_witness :
    runRequest oracleStatus500Demo demoCall =
      ⟨none, some "500 Internal Server Error", [], 1⟩ := by
  have h := status_error_no_retry oracleStatus500Demo demoCall 0
    (fun _ => "") 500 "Internal Server Error" (.jsonOk .none_)
    (by norm_num [MAX_RETRIES]) (fun i hi => absurd hi (by omega))
    rfl (by norm_num)
  simpa using h

-- ── C5 ───────────────────────────────────────────────────────────────────────

/-- C5: `_clamp_paging` returns `offset = max(0, offset or 0)` and
`limit = min(MAX_LIMIT, max(1, limit or DEFAULT_LIMIT))`; the returned
limit always lies in `[1, MAX_LIMIT]` and equals the requested limit `v`
whenever `1 ≤ v ≤ MAX_LIMIT`. -/
theorem clampPaging_spec (o l : Option ℤ) :
    clampPaging o l =
      (max 0 (pyIntOr o 0), min MAX_LIMIT (max 1 (pyIntOr l DEFAULT_LIMIT)))
    ∧ 1 ≤ (clampPaging o l).2 ∧ (clampPaging o l).2 ≤ MAX_LIMIT
    ∧ (∀ v : ℤ, l = some v → 1 ≤ v → v ≤ MAX_LIMIT → (clampPaging o l).2 = v) := by
  refine ⟨rfl, ?_, ?_, ?_⟩
  · cases l <;> simp [clampPaging, pyIntOr, MAX_LIMIT, DEFAULT_LIMIT]
  · cases l <;> simp [clampPaging, pyIntOr, MAX_LIMIT, DEFAULT_LIMIT]
  · intro v hv h1 h2
    subst hv
    unfold MAX_LIMIT at h2
    simp only [clampPaging, pyIntOr, MAX_LIMIT, DEFAULT_LIMIT]
    split_ifs <;> omega

theorem clampPaging_spec_witness :
    (clampPaging (some (-5)) (some 7)).2 = 7
    ∧ 1 ≤ (clampPaging (some (-5)) (some 7)).2 := by
  have h := clampPaging_spec (some (-5)) (some 7)
  exact ⟨h.2.2.2 7 rfl (by norm_num) (by norm_num [MAX_LIMIT]), h.2.1⟩

-- ── C9 ───────────────────────────────────────────────────────────────────────

/-- C9 (code bug): the source assigns
`session.timeout = (CONNECT_TIMEOUT, READ_TIMEOUT)` but issues every
attempt as `session.get(url, params=params)` / `session.post(url,
data=data)` without a `timeout=` argument; since `requests` applies only
the per-call keyword, no timeout bound is in effect on any attempt,
contradicting the claimed connect/read bounds. -/
theorem session_timeout_not_in_effect :
    bridgeAttemptTimeout = none
    ∧ bridgeSession.timeoutAttr = some (CONNECT_TIMEOUT, READ_TIMEOUT)
    ∧ bridgeAttemptTimeout ≠ some (CONNECT_TIMEOUT, READ_TIMEOUT) := by
  refine ⟨rfl, rfl, ?_⟩
  simp [bridgeAttemptTimeout, requestsEffectiveTimeout]

-- ── Order facts for the canonical cache key ──────────────────────────────────

theorem pvalLeB_total (a b : PVal) : PVal.leB a b = true ∨ PVal.leB b a = true := by
  cases a <;> cases b <;> simp [PVal.leB]
  · omega
  · exact le_total _ _

theorem pvalLeB_trans (a b c : PVal) (h1 : PVal.leB a b = true)
    (h2 : PVal.leB b c = true) : PVal.leB a c = true := by
  cases a <;> cases b <;> cases c <;> simp_all [PVal.leB] <;>
    first
    | omega
    | exact le_trans (by assumption) (by assumption)

theorem pvalLeB_antisymm (a b : PVal) (h1 : PVal.leB a b = true)
    (h2 : PVal.leB b a = true) : a = b := by
  cases a with
  | int m =>
      cases b with
      | int n =>
          simp only [PVal.leB, decide_eq_true_eq] at h1 h2
          exact congrArg PVal.int (le_antisymm h1 h2)
      | str t => simp [PVal.leB] at h2
  | str s =>
      cases b with
      | int n => simp [PVal.leB] at h1
      | str t =>
          simp only [PVal.leB, decide_eq_true_eq] at h1 h2
          exact congrArg PVal.str (le_antisymm h1 h2)

instance paramLe.isTotal : IsTotal (String × PVal) paramLe := ⟨by
  intro a b
  rcases lt_trichotomy a.1 b.1 with h | h | h
  · exact Or.inl (Or.inl h)
  · rcases pvalLeB_total a.2 b.2 with hv | hv
    · exact Or.inl (Or.inr ⟨h, hv⟩)
    · exact Or.inr (Or.inr ⟨h.symm, hv⟩)
  · exact Or.inr (Or.inl h)⟩

instance paramLe.isTrans : IsTrans (String × PVal) paramLe := ⟨by
  intro a b c h1 h2
  rcases h1 with h1 | ⟨h1, hv1⟩
  · rcases h2 with h2 | ⟨h2, _⟩
    · exact Or.inl (lt_trans h1 h2)
    · exact Or.inl (h2 ▸ h1)
  · rcases h2 with h2 | ⟨h2, hv2⟩
    · exact Or.inl (h1 ▸ h2)
    · exact Or.inr ⟨h1.trans h2, pvalLeB_trans _ _ _ hv1 hv2⟩⟩

instance paramLe.isAntisymm : IsAntisymm (String × PVal) paramLe := ⟨by
  intro a b h1 h2
  rcases h1 with h1 | ⟨h1, hv1⟩
  · rcases h2 with h2 | ⟨h2, _⟩
    · exact absurd h1 (lt_asymm h2)
    · exact absurd h1 (h2 ▸ lt_irrefl _)
  · rcases h2 with h2 | ⟨h2, hv2⟩
    · exact absurd h2 (h1 ▸ lt_irrefl _)
    · exact Prod.ext h1 (pvalLeB_antisymm _ _ hv1 hv2)⟩

/-- Sorting the parameter pairs is canonical: any two permutations of the
same pairs sort to the same list. -/
theorem sortParams_perm_invariant {l1 l2 : List (String × PVal)}
    (h : l1.Perm l2) : sortParams l1 = sortParams l2 :=
  List.eq_of_perm_of_sorted
    ((List.perm_insertionSort paramLe l1).trans
      (h.trans (List.perm_insertionSort paramLe l2).symm))
    (List.sorted_insertionSort paramLe l1)
    (List.sorted_insertionSort paramLe l2)

-- ── Association-list (Python dict) lemmas ────────────────────────────────────

theorem assocFind_set_self {κ ν : Type} [DecidableEq κ]
    (l : List (κ × ν)) (k : κ) (v : ν) :
    assocFind (assocSet l k v) k = some v := by
  induction l with
  | nil => simp [assocSet, assocFind]
  | cons p rest ih =>
      obtain ⟨k', v'⟩ := p
      by_cases h : k' = k
      · simp [assocSet, h, assocFind]
      · simpa [assocSet, h, assocFind, List.find?_cons, h] using ih

theorem assocFind_set_ne {κ ν : Type} [DecidableEq κ]
    (l : List (κ × ν)) (k1 k2 : κ) (v : ν) (h : k1 ≠ k2) :
    assocFind (assocSet l k1 v) k2 = assocFind l k2 := by
  induction l with
  | nil => simp [assocSet, assocFind, h]
  | cons p rest ih =>
      obtain ⟨k', v'⟩ := p
      by_cases hk : k' = k1
      · subst hk
        simp [assocSet, assocFind, h]
      · by_cases hk2 : k' = k2
        · simp [assocSet, hk, assocFind, hk2, Ne.symm h]
        · simpa [assocSet, hk, assocFind, hk2] using ih

theorem assocFind_erase_self {κ ν : Type} [DecidableEq κ]
    (l : List (κ × ν)) (k : κ) :
    assocFind (assocErase l k) k = none := by
  simp [assocFind, assocErase, List.find?_eq_none]

-- ── C6 ───────────────────────────────────────────────────────────────────────

/-- C6: `TTLCache.set` immediately followed by `TTLCache.get` within the TTL
returns the stored value unchanged; a get more than TTL after the set is a
miss (`None`) and removes the entry from the store; and the key is built
from the name plus the parameter pairs in canonical sorted order, so two
parameter dicts holding the same pairs in different insertion orders
address the same entry. -/
theorem ttlcache_spec {α : Type} (c : TTLCache α) (name : String)
    (params params2 : List (String × PVal)) (v : α) (tset tget : ℚ) :
    (tget - tset ≤ c.ttl →
      ((c.set name params v tset).get name params tget).1 = some v)
    ∧ (tget - tset > c.ttl →
      ((c.set name params v tset).get name params tget).1 = none
      ∧ assocFind ((c.set name params v tset).get name params tget).2.store
          (cacheKey name params) = none)
    ∧ (params.Perm params2 → cacheKey name params = cacheKey name params2) := by
  refine ⟨?_, ?_, ?_⟩
  · intro h
    simp only [TTLCache.set, TTLCache.get, assocFind_set_self]
    rw [if_neg (not_lt.mpr h)]
  · intro h
    constructor
    · simp only [TTLCache.set, TTLCache.get, assocFind_set_self]
      rw [if_pos h]
    · simp only [TTLCache.set, TTLCache.get, assocFind_set_self]
      rw [if_pos h]
      exact assocFind_erase_self _ _
  · intro hperm
    unfold cacheKey
    rw [sortParams_perm_invariant hperm]

theorem ttlcache_spec_witness :
    (((⟨CACHE_TTL, []⟩ : TTLCache Nat).set "methods_default"
        [("offset", PVal.int 0), ("limit", PVal.int 100)] 7 0).get
      "methods_default" [("offset", PVal.int 0), ("limit", PVal.int 100)] 2).1 = some 7
    ∧ (((⟨CACHE_TTL, []⟩ : TTLCache Nat).set "methods_default"
        [("offset", PVal.int 0), ("limit", PVal.int 100)] 7 0).get
      "methods_default" [("offset", PVal.int 0), ("limit", PVal.int 100)] 10).1 = none
    ∧ cacheKey "methods_default" [("offset", PVal.int 0), ("limit", PVal.int 100)]
      = cacheKey "methods_default" [("limit", PVal.int 100), ("offset", PVal.int 0)] := by
  refine ⟨?_, ?_, ?_⟩
  · exact (ttlcache_spec (⟨CACHE_TTL, []⟩ : TTLCache Nat) "methods_default"
      [("offset", PVal.int 0), ("limit", PVal.int 100)]
      [("offset", PVal.int 0), ("limit", PVal.int 100)] 7 0 2).1
      (by norm_num [CACHE_TTL])
  · exact ((ttlcache_spec (⟨CACHE_TTL, []⟩ : TTLCache Nat) "methods_default"
      [("offset", PVal.int 0), ("limit", PVal.int 100)]
      [("offset", PVal.int 0), ("limit", PVal.int 100)] 7 0 10).2.1
      (by norm_num [CACHE_TTL])).1
  · exact (ttlcache_spec (⟨CACHE_TTL, []⟩ : TTLCache Nat) "methods_default"
      [("offset", PVal.int 0), ("limit", PVal.int 100)]
      [("limit", PVal.int 100), ("offset", PVal.int 0)] 7 0 2).2.2
      (List.Perm.swap _ _ _)

-- ── Errors surfaced by `_request` are never the empty string ─────────────────

theorem pyStrOr_unknown_ne_empty (o : Option String) :
    pyStrOr o "unknown error" ≠ "" := by
  cases o with
  | none => decide
  | some s => by_cases h : s = "" <;> simp [pyStrOr, h]

theorem statusErr_ne_empty (status : Nat) (reason : String) :
    toString status ++ " " ++ reason ≠ "" := by
  intro h
  have := congrArg String.length h
  simp [String.length_append] at this
  exact absurd this.1.2 (by decide)

theorem requestGo_error_ne_empty (oracle : HttpCall → Nat → Attempt) (call : HttpCall) :
    ∀ (fuel a : Nat) (lastErr : Option String) (sleeps : List ℚ) (e : String),
      (requestGo oracle call fuel a lastErr sleeps).error = some e → e ≠ "" := by
  intro fuel
  induction fuel with
  | zero =>
      intro a lastErr sleeps e he
      simp only [requestGo] at he
      obtain rfl : pyStrOr lastErr "unknown error" = e := by
        exact Option.some.inj he
      exact pyStrOr_unknown_ne_empty lastErr
  | succ n ih =>
      intro a lastErr sleeps e he
      rw [requestGo] at he
      cases ho : oracle call a with
      | exn msg =>
          rw [ho] at he
          exact ih _ _ _ e he
      | resp status reason body =>
          rw [ho] at he
          dsimp only at he
          by_cases h2 : 200 ≤ status ∧ status < 300
          · rw [if_pos h2] at he
            cases hd : decodeBody body with
            | ok v => rw [hd] at he; simp at he
            | error msg => rw [hd] at he; exact ih _ _ _ e he
          · rw [if_neg h2] at he
            obtain rfl : toString status ++ " " ++ reason = e := Option.some.inj he
            exact statusErr_ne_empty status reason

theorem fullRequest_error_ne_empty (servers : List (String × ServerInfo))
    (binaryId : Option String) (oracle : HttpCall → Nat → Attempt)
    (method endpoint : String) (params : List (String × PVal))
    (body : Option String) (e : String)
    (he : (fullRequest servers binaryId oracle method endpoint params body).error = some e) :
    e ≠ "" := by
  unfold fullRequest at he
  cases hr : resolveTarget servers binaryId with
  | ok info =>
      rw [hr] at he
      exact requestGo_error_ne_empty oracle _ _ _ _ _ e he
  | error msg =>
      rw [hr] at he
      obtain rfl : msg = e := Option.some.inj he
      unfold resolveTarget at hr
      by_cases ht : pyTruthyOS binaryId = true
      · rw [if_pos ht] at hr
        cases hf : assocFind servers (binaryId.getD "") with
        | some info => rw [hf] at hr; simp at hr
        | none =>
            rw [hf] at hr
            obtain rfl : "Binary server \x27" ++ binaryId.getD "" ++ "\x27 not found" = msg := by
              simpa using hr
            intro hcontra
            have := congrArg String.length hcontra
            simp [String.length_append] at this
            exact absurd this.1.1 (by decide)
      · rw [if_neg ht] at hr
        cases hd : getDefaultServer servers with
        | some info => rw [hd] at hr; simp at hr
        | none =>
            rw [hd] at hr
            obtain rfl : "No Binary Ninja servers available" = msg := by
              simpa using hr
            decide

-- ── C4 ───────────────────────────────────────────────────────────────────────

/-- The error envelope of `_list_endpoint` (source line 206). -/
def errEnvelope (e : String) : Envelope :=
  ⟨false, some e, .list [], false⟩

theorem ttlcache_get_ttl {α : Type} (c : TTLCache α) (n : String)
    (p : List (String × PVal)) (t : ℚ) : ((c.get n p t).2).ttl = c.ttl := by
  simp only [TTLCache.get]
  cases h : assocFind c.store (cacheKey n p) with
  | none => rfl
  | some tv =>
      obtain ⟨t', v⟩ := tv
      dsimp only
      split_ifs <;> rfl

theorem ttlcache_get_after_set {α : Type} (c : TTLCache α) (name : String)
    (p : List (String × PVal)) (v : α) (tset tget : ℚ)
    (h : tget - tset ≤ c.ttl) :
    (c.set name p v tset).get name p tget = (some v, c.set name p v tset) := by
  simp only [TTLCache.set, TTLCache.get, assocFind_set_self]
  rw [if_neg (not_lt.mpr h)]

/-- C4: when `_request` reports an error to `_list_endpoint` on a cache
miss, `_list_endpoint` returns the well-formed envelope
`{ok: False, error: err, items: [], hasMore: False}` and stores that same
envelope in the TTL cache under the request's key; any repeated call with
the same key within `CACHE_TTL` (against any registry and any network
condition) returns the cached error envelope and issues zero HTTP
attempts. -/
theorem listEndpoint_error_caches
    (endpoint : String) (offset limit : ℤ) (extra : List (String × PVal))
    (binaryId : Option String) (servers : List (String × ServerInfo))
    (oracle : HttpCall → Nat → Attempt) (cache : TTLCache Envelope) (now now2 : ℚ)
    (e : String)
    (httl : cache.ttl = CACHE_TTL)
    (hmiss : (cache.get (endpoint ++ "_" ++ pyStrOr binaryId "default")
        (dictUpdate [("offset", PVal.int offset), ("limit", PVal.int limit)] extra) now).1
      = none)
    (herr : (fullRequest servers binaryId oracle "GET" endpoint
        (dictUpdate [("offset", PVal.int offset), ("limit", PVal.int limit)] extra) none).error
      = some e)
    (hfresh : now2 - now ≤ CACHE_TTL) :
    listEndpoint endpoint offset limit extra binaryId servers oracle cache now
      = (errEnvelope e,
         ((cache.get (endpoint ++ "_" ++ pyStrOr binaryId "default")
            (dictUpdate [("offset", PVal.int offset), ("limit", PVal.int limit)] extra) now).2).set
           (endpoint ++ "_" ++ pyStrOr binaryId "default")
           (dictUpdate [("offset", PVal.int offset), ("limit", PVal.int limit)] extra)
           (errEnvelope e) now,
         (fullRequest servers binaryId oracle "GET" endpoint
            (dictUpdate [("offset", PVal.int offset), ("limit", PVal.int limit)] extra) none).attempts)
    ∧ ∀ (servers2 : List (String × ServerInfo)) (oracle2 : HttpCall → Nat → Attempt),
        listEndpoint endpoint offset limit extra binaryId servers2 oracle2
          ((listEndpoint endpoint offset limit extra binaryId servers oracle cache now).2.1) now2
        = (errEnvelope e,
           (listEndpoint endpoint offset limit extra binaryId servers oracle cache now).2.1, 0) := by
  have hne : e ≠ "" := fullRequest_error_ne_empty _ _ _ _ _ _ _ e herr
  have key1 : listEndpoint endpoint offset limit extra binaryId servers oracle cache now
      = (errEnvelope e,
         ((cache.get (endpoint ++ "_" ++ pyStrOr binaryId "default")
            (dictUpdate [("offset", PVal.int offset), ("limit", PVal.int limit)] extra) now).2).set
           (endpoint ++ "_" ++ pyStrOr binaryId "default")
           (dictUpdate [("offset", PVal.int offset), ("limit", PVal.int limit)] extra)
           (errEnvelope e) now,
         (fullRequest servers binaryId oracle "GET" endpoint
            (dictUpdate [("offset", PVal.int offset), ("limit", PVal.int limit)] extra) none).attempts) := by
    rcases hGet : TTLCache.get cache (endpoint ++ "_" ++ pyStrOr binaryId "default")
        (dictUpdate [("offset", PVal.int offset), ("limit", PVal.int limit)] extra) now
      with ⟨o, c⟩
    have ho : o = none := by rw [hGet] at hmiss; exact hmiss
    subst ho
    simp only [listEndpoint, hGet, herr]
    rw [if_pos (by simp [pyTruthyOS, hne])]
    simp [errEnvelope]
  refine ⟨key1, ?_⟩
  intro servers2 oracle2
  rw [key1]
  dsimp only
  have hget2 := ttlcache_get_after_set
    ((cache.get (endpoint ++ "_" ++ pyStrOr binaryId "default")
      (dictUpdate [("offset", PVal.int offset), ("limit", PVal.int limit)] extra) now).2)
    (endpoint ++ "_" ++ pyStrOr binaryId "default")
    (dictUpdate [("offset", PVal.int offset), ("limit", PVal.int limit)] extra)
    (errEnvelope e) now now2 (by rw [ttlcache_get_ttl, httl]; exact hfresh)
  simp only [listEndpoint, hget2]

theorem listEndpoint_error_caches_witness :
    listEndpoint "methods" 0 100 [] none [] oracleRetryDemo
        (⟨CACHE_TTL, []⟩ : TTLCache Envelope) 0
      = (errEnvelope "No Binary Ninja servers available",
         (((⟨CACHE_TTL, []⟩ : TTLCache Envelope).get ("methods" ++ "_" ++ pyStrOr none "default")
            (dictUpdate [("offset", PVal.int 0), ("limit", PVal.int 100)] []) 0).2).set
           ("methods" ++ "_" ++ pyStrOr none "default")
           (dictUpdate [("offset", PVal.int 0), ("limit", PVal.int 100)] [])
           (errEnvelope "No Binary Ninja servers available") 0,
         (fullRequest [] none oracleRetryDemo "GET" "methods"
            (dictUpdate [("offset", PVal.int 0), ("limit", PVal.int 100)] []) none).attempts)
    ∧ listEndpoint "methods" 0 100 [] none [] oracleRetryDemo
        ((listEndpoint "methods" 0 100 [] none [] oracleRetryDemo
          (⟨CACHE_TTL, []⟩ : TTLCache Envelope) 0).2.1) 2
      = (errEnvelope "No Binary Ninja servers available",
         (listEndpoint "methods" 0 100 [] none [] oracleRetryDemo
           (⟨CACHE_TTL, []⟩ : TTLCache Envelope) 0).2.1, 0) := by
  have h := listEndpoint_error_caches "methods" 0 100 [] none [] oracleRetryDemo
    (⟨CACHE_TTL, []⟩ : TTLCache Envelope) 0 2 "No Binary Ninja servers available"
    rfl rfl rfl (by norm_num [CACHE_TTL])
  exact ⟨h.1, h.2 [] oracleRetryDemo⟩

-- ── C3 ───────────────────────────────────────────────────────────────────────

/-- C3: on a cache miss with a successful backend payload `P` and clamped
page limit `limit`, `_list_endpoint` produces the envelope by shape: a
mapping containing `"items"` passes through (`items = P["items"]`,
`hasMore = bool(P.get("hasMore", False))`); a sequence gives `items = P`
and `hasMore = (len(P) >= limit)`; anything else gives `items = [P]` and
`hasMore = False`; `ok = True` in all three cases. -/
theorem listEndpoint_success_shapes
    (endpoint : String) (offset limit : ℤ) (extra : List (String × PVal))
    (binaryId : Option String) (servers : List (String × ServerInfo))
    (oracle : HttpCall → Nat → Attempt) (cache : TTLCache Envelope) (now : ℚ)
    (P : PyData)
    (hmiss : (cache.get (endpoint ++ "_" ++ pyStrOr binaryId "default")
        (dictUpdate [("offset", PVal.int offset), ("limit", PVal.int limit)] extra) now).1
      = none)
    (herr : (fullRequest servers binaryId oracle "GET" endpoint
        (dictUpdate [("offset", PVal.int offset), ("limit", PVal.int limit)] extra) none).error
      = none)
    (hdata : (fullRequest servers binaryId oracle "GET" endpoint
        (dictUpdate [("offset", PVal.int offset), ("limit", PVal.int limit)] extra) none).data
      = some P) :
    (∀ fs, P = .dict fs →
      ((assocFind fs "items").isSome →
        (listEndpoint endpoint offset limit extra binaryId servers oracle cache now).1
          = ⟨true, none, (assocFind fs "items").getD (.list []),
             pyTruthy ((assocFind fs "hasMore").getD (.bool false))⟩)
      ∧ (¬(assocFind fs "items").isSome →
        (listEndpoint endpoint offset limit extra binaryId servers oracle cache now).1
          = ⟨true, none, .list [.dict fs], false⟩))
    ∧ (∀ xs, P = .list xs →
        (listEndpoint endpoint offset limit extra binaryId servers oracle cache now).1
          = ⟨true, none, .list xs, decide ((xs.length : ℤ) ≥ limit)⟩)
    ∧ ((∀ fs, P ≠ .dict fs) → (∀ xs, P ≠ .list xs) →
        (listEndpoint endpoint offset limit extra binaryId servers oracle cache now).1
          = ⟨true, none, .list [P], false⟩) := by
  rcases hGet : TTLCache.get cache (endpoint ++ "_" ++ pyStrOr binaryId "default")
      (dictUpdate [("offset", PVal.int offset), ("limit", PVal.int limit)] extra) now
    with ⟨o, c⟩
  have ho : o = none := by rw [hGet] at hmiss; exact hmiss
  subst ho
  refine ⟨?_, ?_, ?_⟩
  · intro fs hP
    subst hP
    constructor
    · intro hitems
      simp only [listEndpoint, hGet, herr, pyTruthyOS]
      simp [hdata, hitems]
    · intro hitems
      simp only [listEndpoint, hGet, herr, pyTruthyOS]
      simp only [Option.isSome] at hitems
      simp [hdata]
      cases hfind : assocFind fs "items" with
      | none => simp
      | some it => rw [hfind] at hitems; simp at hitems
  · intro xs hP
    subst hP
    simp only [listEndpoint, hGet, herr, pyTruthyOS]
    simp [hdata]
  · intro hnd hnl
    cases P
    case dict fs => exact absurd rfl (hnd fs)
    case list xs => exact absurd rfl (hnl xs)
    all_goals
      simp only [listEndpoint, hGet, herr, pyTruthyOS]
      simp [hdata]

def oracleList123 : HttpCall → Nat → Attempt := fun _ _ =>
  .resp 200 "OK" (.jsonOk (.list [.int 1, .int 2, .int 3]))

def oracleDictItems : HttpCall → Nat → Attempt := fun _ _ =>
  .resp 200 "OK" (.jsonOk (.dict [("items", .list [.int 1, .int 2, .int 3]),
                                  ("hasMore", .bool true)]))

def demoServers1 : List (String × ServerInfo) :=
  [("port_9009",
    ⟨"http://localhost:9009", 9009, "a.exe", .dict [("loaded", .bool true)], 0⟩)]

theorem listEndpoint_success_shapes_witness :
    (listEndpoint "methods" 0 3 [] none demoServers1 oracleList123
        (⟨CACHE_TTL, []⟩ : TTLCache Envelope) 0).1
      = ⟨true, none, .list [.int 1, .int 2, .int 3], true⟩
    ∧ (listEndpoint "methods" 0 5 [] none demoServers1 oracleList123
        (⟨CACHE_TTL, []⟩ : TTLCache Envelope) 0).1
      = ⟨true, none, .list [.int 1, .int 2, .int 3], false⟩
    ∧ (listEndpoint "methods" 0 3 [] none demoServers1 oracleDictItems
        (⟨CACHE_TTL, []⟩ : TTLCache Envelope) 0).1
      = ⟨true, none, .list [.int 1, .int 2, .int 3], true⟩ := by
  refine ⟨?_, ?_, ?_⟩
  · have h := (listEndpoint_success_shapes "methods" 0 3 [] none demoServers1
      oracleList123 (⟨CACHE_TTL, []⟩ : TTLCache Envelope) 0
      (.list [.int 1, .int 2, .int 3]) rfl rfl rfl).2.1
      [.int 1, .int 2, .int 3] rfl
    rw [h]
    rfl
  · have h := (listEndpoint_success_shapes "methods" 0 5 [] none demoServers1
      oracleList123 (⟨CACHE_TTL, []⟩ : TTLCache Envelope) 0
      (.list [.int 1, .int 2, .int 3]) rfl rfl rfl).2.1
      [.int 1, .int 2, .int 3] rfl
    rw [h]
    rfl
  · have h := ((listEndpoint_success_shapes "methods" 0 3 [] none demoServers1
      oracleDictItems (⟨CACHE_TTL, []⟩ : TTLCache Envelope) 0
      (.dict [("items", .list [.int 1, .int 2, .int 3]), ("hasMore", .bool true)])
      rfl rfl rfl).1
      [("items", .list [.int 1, .int 2, .int 3]), ("hasMore", .bool true)] rfl).1
      (by decide)
    rw [h]
    rfl

-- ── C7 ───────────────────────────────────────────────────────────────────────

theorem listCharLeB_total : ∀ a b : List Char,
    listCharLeB a b = true ∨ listCharLeB b a = true := by
  intro a
  induction a with
  | nil => intro b; exact Or.inl rfl
  | cons x xs ih =>
      intro b
      cases b with
      | nil => exact Or.inr rfl
      | cons y ys =>
          by_cases h1 : x < y
          · left; simp [listCharLeB, h1]
          · by_cases h2 : y < x
            · right; simp [listCharLeB, h2]
            · rcases ih ys with h | h
              · left; simp [listCharLeB, h1, h2, h]
              · right; simp [listCharLeB, h1, h2, h]

theorem listCharLeB_trans : ∀ a b c : List Char,
    listCharLeB a b = true → listCharLeB b c = true → listCharLeB a c = true := by
  intro a
  induction a with
  | nil => intro b c h1 h2; rfl
  | cons x xs ih =>
      intro b c h1 h2
      cases b with
      | nil => simp [listCharLeB] at h1
      | cons y ys =>
          cases c with
          | nil => simp [listCharLeB] at h2
          | cons z zs =>
              by_cases hxy : x < y
              · by_cases hyz : y < z
                · simp [listCharLeB, lt_trans hxy hyz]
                · by_cases hzy : z < y
                  · simp [listCharLeB, hyz, hzy] at h2
                  · obtain rfl : y = z := le_antisymm (not_lt.mp hzy) (not_lt.mp hyz)
                    simp [listCharLeB, hxy]
              · by_cases hyx : y < x
                · simp [listCharLeB, hxy, hyx] at h1
                · obtain rfl : x = y := le_antisymm (not_lt.mp hyx) (not_lt.mp hxy)
                  simp only [listCharLeB, lt_irrefl, if_false] at h1 h2 ⊢
                  by_cases hxz : x < z
                  · simp [hxz]
                  · by_cases hzx : z < x
                    · simp [hxz, hzx] at h2
                    · obtain rfl : x = z := le_antisymm (not_lt.mp hzx) (not_lt.mp hxz)
                      simp only [lt_irrefl, if_false] at h1 h2 ⊢
                      exact ih ys zs h1 h2

theorem strLeB_total (a b : String) : strLeB a b = true ∨ strLeB b a = true :=
  listCharLeB_total a.data b.data

theorem strLeB_trans (a b c : String) (h1 : strLeB a b = true)
    (h2 : strLeB b c = true) : strLeB a c = true :=
  listCharLeB_trans a.data b.data c.data h1 h2

instance candLe.isTotal : IsTotal MatchCand candLe := ⟨by
  intro a b
  unfold candLe
  cases ha : !a.exactMatch <;> cases hb : !b.exactMatch
  · rcases strLeB_total a.filename b.filename with h | h
    · exact Or.inl (Or.inr ⟨rfl, h⟩)
    · exact Or.inr (Or.inr ⟨rfl, h⟩)
  · exact Or.inl (Or.inl ⟨rfl, rfl⟩)
  · exact Or.inr (Or.inl ⟨rfl, rfl⟩)
  · rcases strLeB_total a.filename b.filename with h | h
    · exact Or.inl (Or.inr ⟨rfl, h⟩)
    · exact Or.inr (Or.inr ⟨rfl, h⟩)⟩

instance candLe.isTrans : IsTrans MatchCand candLe := ⟨by
  intro a b c h1 h2
  rcases h1 with ⟨ha, hb⟩ | ⟨hab, hf1⟩
  · rcases h2 with ⟨hb2, hc⟩ | ⟨hbc, _⟩
    · rw [hb] at hb2; exact absurd hb2 (by simp)
    · exact Or.inl ⟨ha, hbc.symm.trans hb⟩
  · rcases h2 with ⟨hb2, hc⟩ | ⟨hbc, hf2⟩
    · exact Or.inl ⟨hab.trans hb2, hc⟩
    · exact Or.inr ⟨hab.trans hbc, strLeB_trans _ _ _ hf1 hf2⟩⟩

theorem mem_rawMatches_iff (q : String) (servers : List (String × ServerInfo))
    (c : MatchCand) :
    c ∈ rawMatches q servers ↔
      ∃ p ∈ servers, pyInStr (pyLower q) (pyLower p.2.filename) = true ∧
        c = ⟨p.1, p.2.filename, p.2.port,
             decide (pyLower q = pyLower p.2.filename)⟩ := by
  unfold rawMatches
  rw [List.mem_filterMap]
  constructor
  · rintro ⟨p, hp, hf⟩
    dsimp only at hf
    cases hin : pyInStr (pyLower q) (pyLower p.2.filename) with
    | true =>
        rw [hin] at hf
        simp only [if_true] at hf
        exact ⟨p, hp, hin, (Option.some.inj hf).symm⟩
    | false =>
        rw [hin] at hf
        simp at hf
  · rintro ⟨p, hp, hin, rfl⟩
    refine ⟨p, hp, ?_⟩
    dsimp only
    rw [if_pos hin]

/-- C7: `select_binary_by_filename` matches exactly the instances whose
display filename contains the query case-insensitively; the candidate list
is sorted ascending by the key `(not exact-match, filename)` (so an exact
case-insensitive match precedes every partial match, ties broken
lexicographically by filename); the selection is the first ranked
candidate; and with no match the result is the not-found outcome naming the
query together with all currently known filenames. -/
theorem select_binary_spec (q : String) (servers : List (String × ServerInfo)) :
    (rawMatches q servers = [] →
      selectBinaryByFilename q servers =
        .notFound ("No binary found matching filename \x27" ++ q ++ "\x27")
          (servers.map (·.2.filename)))
    ∧ (rawMatches q servers ≠ [] →
      selectBinaryByFilename q servers =
        .found (List.insertionSort candLe (rawMatches q servers))
          ((List.insertionSort candLe (rawMatches q servers)).head?.map (·.binaryId))
          ("Found " ++ toString (rawMatches q servers).length
            ++ " match(es) for \x27" ++ q ++ "\x27")
      ∧ (List.insertionSort candLe (rawMatches q servers)).Perm (rawMatches q servers)
      ∧ (List.insertionSort candLe (rawMatches q servers)).Sorted candLe
      ∧ (∀ c ∈ List.insertionSort candLe (rawMatches q servers),
          pyInStr (pyLower q) (pyLower c.filename) = true)
      ∧ (∀ p ∈ servers, pyInStr (pyLower q) (pyLower p.2.filename) = true →
          (⟨p.1, p.2.filename, p.2.port,
            decide (pyLower q = pyLower p.2.filename)⟩ : MatchCand)
            ∈ List.insertionSort candLe (rawMatches q servers))) := by
  constructor
  · intro hempty
    unfold selectBinaryByFilename
    rw [if_pos (List.isEmpty_iff.mpr hempty)]
  · intro hne
    refine ⟨?_, List.perm_insertionSort candLe _, List.sorted_insertionSort candLe _,
      ?_, ?_⟩
    · unfold selectBinaryByFilename
      rw [if_neg (by simpa [List.isEmpty_iff] using hne)]
    · intro c hc
      rw [List.mem_insertionSort] at hc
      obtain ⟨p, _, hin, rfl⟩ := (mem_rawMatches_iff q servers c).mp hc
      exact hin
    · intro p hp hin
      rw [List.mem_insertionSort]
      exact (mem_rawMatches_iff q servers _).mpr ⟨p, hp, hin, rfl⟩

def demoSelServers : List (String × ServerInfo) :=
  [("port_9009",
    ⟨"http://localhost:9009", 9009, "1a.exe", .dict [("loaded", .bool true)], 0⟩),
   ("port_9010",
    ⟨"http://localhost:9010", 9010, "A.exe", .dict [("loaded", .bool true)], 0⟩)]

theorem select_binary_spec_witness :
    selectBinaryByFilename "a.exe" demoSelServers =
      .found [⟨"port_9010", "A.exe", 9010, true⟩, ⟨"port_9009", "1a.exe", 9009, false⟩]
        (some "port_9010") "Found 2 match(es) for \x27a.exe\x27"
    ∧ (List.insertionSort candLe (rawMatches "a.exe" demoSelServers)).Sorted candLe := by
  have h := (select_binary_spec "a.exe" demoSelServers).2 (by decide)
  refine ⟨?_, h.2.2.1⟩
  rw [h.1]
  rfl

-- ── C8 ───────────────────────────────────────────────────────────────────────

/-- What one sweep observes: the (port, status-dict) pairs of the live
instances, in ascending port order — a port is live iff its probe yielded a
200 status with a decodable mapping body whose `loaded` field is truthy. -/
def sweepObservations (probe : Nat → Option PyData) :
    List (Nat × List (String × PyData)) :=
  (List.range MAX_SERVERS).filterMap fun offset =>
    let port := BINJA_BASE_PORT + offset
    match probe port with
    | some (.dict fs) =>
        if pyTruthy ((assocFind fs "loaded").getD .none_) then some (port, fs)
        else none
    | _ => none

theorem discover_step (port : Nat) (o : Option PyData) (now : ℚ) :
    (match o with
     | some (.dict fs) =>
         if pyTruthy ((assocFind fs "loaded").getD .none_) then
           some ("port_" ++ toString port, mkServerInfo port fs now)
         else none
     | _ => none)
    = Option.map (fun pst => ("port_" ++ toString pst.1, mkServerInfo pst.1 pst.2 now))
        (match o with
         | some (.dict fs) =>
             if pyTruthy ((assocFind fs "loaded").getD .none_) then some (port, fs)
             else none
         | _ => none) := by
  cases o with
  | none => rfl
  | some st =>
      cases st with
      | dict fs =>
          by_cases hl : pyTruthy ((assocFind fs "loaded").getD .none_) = true
          · simp [hl]
          · simp [hl]
      | none_ => rfl
      | bool b => rfl
      | int n => rfl
      | str s => rfl
      | list xs => rfl

theorem discoverServers_eq (probe : Nat → Option PyData) (now : ℚ) :
    discoverServers probe now
      = (sweepObservations probe).map
          (fun pst => ("port_" ++ toString pst.1, mkServerInfo pst.1 pst.2 now)) := by
  unfold discoverServers sweepObservations
  rw [List.map_filterMap]
  congr 1
  funext offset
  exact discover_step (BINJA_BASE_PORT + offset) (probe (BINJA_BASE_PORT + offset)) now

/-- C8: `get_default_server` returns `None` exactly when the sweep observed
no live instance; otherwise the default is deterministically the record of
the lowest live port (the registry dict is built in ascending port order,
and CPython dicts iterate in insertion order): any two runs whose sweeps
observe the same live ports with the same status payloads obtain the same
default record. -/
theorem get_default_deterministic (probe probe2 : Nat → Option PyData) (now : ℚ)
    (hobs : sweepObservations probe = sweepObservations probe2) :
    (getDefaultServer (discoverServers probe now) = none
      ↔ sweepObservations probe = [])
    ∧ getDefaultServer (discoverServers probe now)
        = (sweepObservations probe).head?.map (fun pst => mkServerInfo pst.1 pst.2 now)
    ∧ getDefaultServer (discoverServers probe now)
        = getDefaultServer (discoverServers probe2 now) := by
  have key : ∀ pr : Nat → Option PyData,
      getDefaultServer (discoverServers pr now)
        = (sweepObservations pr).head?.map (fun pst => mkServerInfo pst.1 pst.2 now) := by
    intro pr
    unfold getDefaultServer
    rw [discoverServers_eq, List.map_map, List.head?_map]
    rfl
  refine ⟨?_, key probe, ?_⟩
  · rw [key probe]
    constructor
    · intro h
      cases hobs2 : sweepObservations probe with
      | nil => rfl
      | cons a as => rw [hobs2] at h; simp at h
    · intro h; rw [h]; rfl
  · rw [key probe, key probe2, hobs]

def probeA : Nat → Option PyData := fun p =>
  if p = 9010 then some (.dict [("loaded", .bool true), ("filename", .str "a.exe")])
  else if p = 9012 then some (.dict [("loaded", .bool true), ("filename", .str "b.exe")])
  else none

def probeB : Nat → Option PyData := fun p =>
  if p = 9010 then some (.dict [("loaded", .bool true), ("filename", .str "a.exe")])
  else if p = 9012 then some (.dict [("loaded", .bool true), ("filename", .str "b.exe")])
  else if p = 9011 then some (.dict [("loaded", .bool false)])
  else if p = 9013 then some (.str "garbage")
  else none

theorem get_default_deterministic_witness :
    (getDefaultServer (discoverServers probeA 5) = none
      ↔ sweepObservations probeA = [])
    ∧ getDefaultServer (discoverServers probeA 5)
        = (sweepObservations probeA).head?.map (fun pst => mkServerInfo pst.1 pst.2 5)
    ∧ getDefaultServer (discoverServers probeA 5)
        = getDefaultServer (discoverServers probeB 5) :=
  get_default_deterministic probeA probeB 5 rfl

-- ── C10 ──────────────────────────────────────────────────────────────────────

/-- `d.get(k)` on a tool response value (a Python dict). -/
def pyLookup (d : PyData) (k : String) : Option PyData :=
  match d with
  | .dict fs => assocFind fs k
  | _ => none

theorem pyStrOrNone_empty : pyStrOrNone "" = none := rfl

/-- A backend whose `data/references` payload is a mapping that itself
carries a `binary_id` key. -/
def oracleSpoof : HttpCall → Nat → Attempt := fun _ _ =>
  .resp 200 "OK" (.jsonOk (.dict [("binary_id", .str "spoofed")]))

/-- C10 counterexample: `search_data_references` builds its success dict as
`{"ok": True, "binary_id": binary_id or "default", **data}`, so a mapping
payload containing `binary_id` overrides the echo — called with
`binary_id = ""`, the response reports the backend value, not
`"default"`. -/
theorem searchRefs_echo_overridden :
    pyLookup (searchDataReferencesTool demoServers1 oracleSpoof "0x1" "" "")
        "binary_id" = some (.str "spoofed")
    ∧ pyLookup (searchDataReferencesTool demoServers1 oracleSpoof "0x1" "" "")
        "binary_id" ≠ some (.str "default") := by
  have h1 : pyLookup (searchDataReferencesTool demoServers1 oracleSpoof "0x1" "" "")
      "binary_id" = some (.str "spoofed") := rfl
  refine ⟨h1, ?_⟩
  intro h
  rw [h1] at h
  injection h with h2
  injection h2 with h3
  exact absurd h3 (by decide)

theorem assocFind_eq_none_forall {κ ν : Type} [DecidableEq κ]
    {l : List (κ × ν)} {k : κ} (h : assocFind l k = none) :
    ∀ p ∈ l, p.1 ≠ k := by
  intro p hp
  unfold assocFind at h
  cases hf : List.find? (fun p => decide (p.1 = k)) l with
  | none => rw [List.find?_eq_none] at hf; simpa using hf p hp
  | some q => rw [hf] at h; simp at h

theorem assocFind_dictUpdate_ne {κ ν : Type} [DecidableEq κ]
    (base : List (κ × ν)) (extra : List (κ × ν)) (k : κ)
    (h : ∀ p ∈ extra, p.1 ≠ k) :
    assocFind (dictUpdate base extra) k = assocFind base k := by
  induction extra generalizing base with
  | nil => rfl
  | cons p rest ih =>
      have hbase : assocFind (assocSet base p.1 p.2) k = assocFind base k :=
        assocFind_set_ne base p.1 k p.2 (h p (by simp))
      calc assocFind (dictUpdate base (p :: rest)) k
          = assocFind (dictUpdate (assocSet base p.1 p.2) rest) k := rfl
        _ = assocFind (assocSet base p.1 p.2) k :=
            ih (assocSet base p.1 p.2) (fun q hq => h q (by simp [hq]))
        _ = assocFind base k := hbase

/-- C10 (amended): for every tool taking a `binary_id` parameter, calling it
with `binary_id = ""` (the default, i.e. no explicit target) passes `None`
to `_request`, which routes through `get_default_server` rather than
`get_server_by_id`; the response fields that echo the target report
`"default"` — for `health` unconditionally, for `overview`,
`get_binary_status`, `decompile_function`, `read_memory` on their
non-error paths, and for `search_data_references` unless the backend
mapping payload itself carries a `binary_id` key (which then overrides the
echo); the list tools forward the `None` target into `_list_endpoint`. -/
theorem empty_binary_id_routes_default
    (servers : List (String × ServerInfo)) (oracle : HttpCall → Nat → Attempt)
    (address name q kind format pattern : String) (size offset limit : ℤ)
    (cache : TTLCache Envelope) (now : ℚ) :
    pyStrOrNone "" = none
    ∧ resolveTarget servers none
        = (match getDefaultServer servers with
           | some info => Except.ok info
           | none => Except.error "No Binary Ninja servers available")
    ∧ pyLookup (healthTool servers oracle "") "binary_id" = some (.str "default")
    ∧ (pyTruthyOS (fullRequest servers none oracle "GET" "overview" [] none).error
        = false →
       pyLookup (overviewTool servers oracle "") "binary_id" = some (.str "default"))
    ∧ (pyTruthyOS (fullRequest servers none oracle "GET" "binary" [] none).error
        = false →
       pyLookup (getBinaryStatusTool servers oracle "") "binary_id"
         = some (.str "default"))
    ∧ (pyStrip name ≠ "" →
       pyTruthyOS (fullRequest servers none oracle "POST" "decompile" []
          (some (pyStrip name))).error = false →
       pyLookup (decompileFunctionTool servers oracle name "") "binary_id"
         = some (.str "default"))
    ∧ (address ≠ "" → 0 < size → size ≤ 4096 →
       pyTruthyOS (fullRequest servers none oracle "GET" "memory"
          [("address", PVal.str (pyStrip address)), ("size", PVal.int size),
           ("format", PVal.str format)] none).error = false →
       pyLookup (readMemoryTool servers oracle address size format "") "binary_id"
         = some (.str "default"))
    ∧ (address ≠ "" →
       pyTruthyOS (fullRequest servers none oracle "GET" "data/references"
          ((if address ≠ "" then [("address", PVal.str (pyStrip address))] else []) ++
           (if pattern ≠ "" then [("pattern", PVal.str (pyStrip pattern))] else []))
          none).error = false →
       (∀ fs, (fullRequest servers none oracle "GET" "data/references"
          ((if address ≠ "" then [("address", PVal.str (pyStrip address))] else []) ++
           (if pattern ≠ "" then [("pattern", PVal.str (pyStrip pattern))] else []))
          none).data = some (.dict fs) → assocFind fs "binary_id" = none) →
       pyLookup (searchDataReferencesTool servers oracle address pattern "")
         "binary_id" = some (.str "default"))
    ∧ (kind ∈ validKinds →
       listEntitiesTool kind offset limit q "" servers oracle cache now
         = (if q ≠ "" ∧ kind = "methods" then
              listEndpoint "searchFunctions" (clampPaging (some offset) (some limit)).1
                (clampPaging (some offset) (some limit)).2 [("query", PVal.str q)]
                none servers oracle cache now
            else
              listEndpoint kind (clampPaging (some offset) (some limit)).1
                (clampPaging (some offset) (some limit)).2
                (if q ≠ "" then [("query", PVal.str q)] else [])
                none servers oracle cache now)) := by
  refine ⟨rfl, rfl, rfl, ?_, ?_, ?_, ?_, ?_, ?_⟩
  · intro herr
    simp only [overviewTool, pyStrOrNone_empty, herr]
    rfl
  · intro herr
    simp only [getBinaryStatusTool, pyStrOrNone_empty, herr]
    rfl
  · intro hname herr
    simp only [decompileFunctionTool, pyStrOrNone_empty, herr, if_neg hname]
    rfl
  · intro haddr h1 h2 herr
    simp only [readMemoryTool, pyStrOrNone_empty, herr, if_neg haddr,
      if_neg (show ¬(size ≤ 0 ∨ size > 4096) by omega)]
    rfl
  · intro haddr herr hnospoof
    have hcond : ¬(address = "" ∧ pattern = "") := fun hc => haddr hc.1
    simp only [searchDataReferencesTool, pyStrOrNone_empty, herr, if_neg hcond]
    cases hd : (fullRequest servers none oracle "GET" "data/references"
        ((if address ≠ "" then [("address", PVal.str (pyStrip address))] else []) ++
         (if pattern ≠ "" then [("pattern", PVal.str (pyStrip pattern))] else []))
        none).data with
    | none => rfl
    | some v =>
        cases v with
        | dict fs =>
            have habs := hnospoof fs hd
            simp only [pyLookup, Bool.false_eq_true, if_false]
            rw [assocFind_dictUpdate_ne _ _ _ (assocFind_eq_none_forall habs)]
            rfl
        | none_ => rfl
        | bool b => rfl
        | int n => rfl
        | str s => rfl
        | list xs => rfl
  · intro hkind
    simp only [listEntitiesTool, pyStrOrNone_empty, if_neg (not_not_intro hkind)]

theorem empty_binary_id_routes_default_witness :
    pyLookup (healthTool demoServers1 oracleDictItems "") "binary_id"
      = some (.str "default")
    ∧ pyLookup (overviewTool demoServers1 oracleDictItems "") "binary_id"
      = some (.str "default")
    ∧ pyLookup (getBinaryStatusTool demoServers1 oracleDictItems "") "binary_id"
      = some (.str "default")
    ∧ pyLookup (decompileFunctionTool demoServers1 oracleDictItems "f" "") "binary_id"
      = some (.str "default")
    ∧ pyLookup (readMemoryTool demoServers1 oracleDictItems "0x1" 4 "hex" "")
        "binary_id" = some (.str "default")
    ∧ pyLookup (searchDataReferencesTool demoServers1 oracleDictItems "0x1" "" "")
        "binary_id" = some (.str "default")
    ∧ listEntitiesTool "methods" 0 100 "" "" demoServers1 oracleDictItems
        (⟨CACHE_TTL, []⟩ : TTLCache Envelope) 0
      = listEndpoint "methods" (clampPaging (some 0) (some 100)).1
          (clampPaging (some 0) (some 100)).2 [] none demoServers1 oracleDictItems
          (⟨CACHE_TTL, []⟩ : TTLCache Envelope) 0 := by
  have h := empty_binary_id_routes_default demoServers1 oracleDictItems
    "0x1" "f" "" "methods" "hex" "" 4 0 100 (⟨CACHE_TTL, []⟩ : TTLCache Envelope) 0
  refine ⟨h.2.2.1, h.2.2.2.1 rfl, h.2.2.2.2.1 rfl,
    h.2.2.2.2.2.1 (by decide) rfl, h.2.2.2.2.2.2.1 (by decide) (by norm_num)
      (by norm_num) rfl,
    h.2.2.2.2.2.2.2.1 (by decide) rfl ?_, ?_⟩
  · intro fs hd
    have h1 := Option.some.inj hd
    injection h1 with h2
    subst h2
    rfl
  · have he := h.2.2.2.2.2.2.2.2 (by decide)
    rw [he]
    rfl
